import Mathlib

/-!
Shallow embedding of the quic-rpc core: the transport-composition layer
(src/transport/combined.rs) and the mapper-aware client engine
(src/client.rs).  Backends, substreams and envelope conversions are kept
abstract as type parameters; the receive side of a substream is modelled
as the finite list of items the peer produces, in order, and futures as
their eventual results.  Each definition mirrors one Rust item and is
named after it.
-/

namespace QuicRpc

/-! ## Transport composition (src/transport/combined.rs) -/

/-- Modelled from the spec: the LocalAddr enum lives outside the provided
sources (only combined.rs refers to it); per §6 it is a closed set of
address variants: an IP socket address, an abstract node id, or an
in-memory sentinel.  The payloads are abstracted as naturals. -/
inductive LocalAddr where
  | sockAddr (ip : Nat) (port : Nat)
  | nodeId (id : Nat)
  | mem (id : Nat)
deriving DecidableEq, Repr

/-- Abstract backend connection as the combined connection sees it:
opening a bidirectional substream either fails with the backend's open
error or yields a send-sink/recv-stream pair. -/
structure Conn (OpenE SS RS : Type) where
  openResult : Except OpenE (SS × RS)

/-- Abstract backend server endpoint as the combined endpoint sees it.
acceptResult is the eventual outcome of accept: none means the backend
never yields (forever pending), some r means it eventually completes
with r.  localAddr is the backend's address list. -/
structure Endpoint (OpenE SS RS : Type) where
  localAddr : List LocalAddr
  acceptResult : Option (Except OpenE (SS × RS))

/-- SendSink for combined channels (combined.rs lines 100-107): a tagged
union of the two backends' send sinks. -/
inductive CombinedSendSink (SA SB : Type) where
  | A (s : SA)
  | B (s : SB)
deriving DecidableEq, Repr

/-- RecvStream for combined channels (combined.rs lines 143-150): a tagged
union of the two backends' receive streams. -/
inductive CombinedRecvStream (RA RB : Type) where
  | A (r : RA)
  | B (r : RB)
deriving DecidableEq, Repr

/-- OpenBiError for combined channels (combined.rs lines 199-208). -/
inductive OpenBiError (EA EB : Type) where
  | A (e : EA)
  | B (e : EB)
  | noChannel
deriving DecidableEq, Repr

/-- AcceptBiError for combined channels (combined.rs lines 218-225): only
the two tagged variants, there is no NoChannel constructor. -/
inductive AcceptBiError (EA EB : Type) where
  | A (e : EA)
  | B (e : EB)
deriving DecidableEq, Repr

/-- CombinedConnection (combined.rs lines 13-19): two optional backend
connections. -/
structure CombinedConnection (EA EB SA RA SB RB : Type) where
  a : Option (Conn EA SA RA)
  b : Option (Conn EB SB RB)

/-- CombinedConnection::open (combined.rs lines 253-265): try backend a
first, else backend b, else fail with NoChannel; the chosen backend's
halves are returned under its tag. -/
def CombinedConnection.open {EA EB SA RA SB RB : Type}
    (c : CombinedConnection EA EB SA RA SB RB) :
    Except (OpenBiError EA EB) (CombinedSendSink SA SB × CombinedRecvStream RA RB) :=
  match c.a with
  | some a =>
    match a.openResult with
    | .ok (send, recv) => .ok (.A send, .A recv)
    | .error e => .error (.A e)
  | none =>
    match c.b with
    | some b =>
      match b.openResult with
      | .ok (send, recv) => .ok (.B send, .B recv)
      | .error e => .error (.B e)
    | none => .error .noChannel

/-- CombinedServerEndpoint (combined.rs lines 47-55): two optional backend
endpoints plus the address list snapshot taken at construction. -/
structure CombinedServerEndpoint (EA EB SA RA SB RB : Type) where
  a : Option (Endpoint EA SA RA)
  b : Option (Endpoint EB SB RB)
  local_addr : List LocalAddr

/-- CombinedServerEndpoint::new (combined.rs lines 64-73): starts from an
empty vector, extends it with the addresses of backend a when present,
then with those of backend b when present. -/
def CombinedServerEndpoint.new {EA EB SA RA SB RB : Type}
    (a : Option (Endpoint EA SA RA)) (b : Option (Endpoint EB SB RB)) :
    CombinedServerEndpoint EA EB SA RA SB RB :=
  let addr0 : List LocalAddr := []
  let addr1 := match a with
    | some a => addr0 ++ a.localAddr
    | none => addr0
  let addr2 := match b with
    | some b => addr1 ++ b.localAddr
    | none => addr1
  { a := a, b := b, local_addr := addr2 }

/-- Clone for CombinedServerEndpoint (combined.rs lines 81-89): clones the
three fields verbatim. -/
def CombinedServerEndpoint.clone {EA EB SA RA SB RB : Type}
    (e : CombinedServerEndpoint EA EB SA RA SB RB) :
    CombinedServerEndpoint EA EB SA RA SB RB :=
  { a := e.a, b := e.b, local_addr := e.local_addr }

/-- Branch of CombinedServerEndpoint::accept for backend a (combined.rs
lines 287-294): when the backend is absent the branch is forever pending
(none); otherwise it completes exactly when the backend's accept does,
with the halves tagged A. -/
def CombinedServerEndpoint.aBranch {EA EB SA RA SB RB : Type}
    (e : CombinedServerEndpoint EA EB SA RA SB RB) :
    Option (Except (AcceptBiError EA EB)
      (CombinedSendSink SA SB × CombinedRecvStream RA RB)) :=
  match e.a with
  | some a =>
    match a.acceptResult with
    | some (.ok (send, recv)) => some (.ok (.A send, .A recv))
    | some (.error err) => some (.error (.A err))
    | none => none
  | none => none

/-- Branch of CombinedServerEndpoint::accept for backend b (combined.rs
lines 295-302), symmetric to aBranch with tag B. -/
def CombinedServerEndpoint.bBranch {EA EB SA RA SB RB : Type}
    (e : CombinedServerEndpoint EA EB SA RA SB RB) :
    Option (Except (AcceptBiError EA EB)
      (CombinedSendSink SA SB × CombinedRecvStream RA RB)) :=
  match e.b with
  | some b =>
    match b.acceptResult with
    | some (.ok (send, recv)) => some (.ok (.B send, .B recv))
    | some (.error err) => some (.error (.B err))
    | none => none
  | none => none

/-- CombinedServerEndpoint::accept (combined.rs lines 286-310): races the
two branches.  The scheduling of the select between two completed
branches is abstracted by the oracle preferA; a branch that never
completes cannot win, and when neither branch ever completes the whole
accept never completes (none). -/
def CombinedServerEndpoint.accept {EA EB SA RA SB RB : Type}
    (e : CombinedServerEndpoint EA EB SA RA SB RB) (preferA : Bool) :
    Option (Except (AcceptBiError EA EB)
      (CombinedSendSink SA SB × CombinedRecvStream RA RB)) :=
  match e.aBranch, e.bBranch with
  | some ra, some rb => some (if preferA then ra else rb)
  | some ra, none => some ra
  | none, some rb => some rb
  | none, none => none

/-- State-passing form of accept: the Rust method takes a shared reference
and writes no field, so the post-state rebuilds every field from the
pre-state unchanged. -/
def CombinedServerEndpoint.acceptStep {EA EB SA RA SB RB : Type}
    (e : CombinedServerEndpoint EA EB SA RA SB RB) (preferA : Bool) :
    CombinedServerEndpoint EA EB SA RA SB RB ×
      Option (Except (AcceptBiError EA EB)
        (CombinedSendSink SA SB × CombinedRecvStream RA RB)) :=
  ({ a := e.a, b := e.b, local_addr := e.local_addr }, e.accept preferA)

/-- CombinedServerEndpoint::local_addr (combined.rs lines 312-314): returns
the stored snapshot. -/
def CombinedServerEndpoint.localAddrFn {EA EB SA RA SB RB : Type}
    (e : CombinedServerEndpoint EA EB SA RA SB RB) : List LocalAddr :=
  e.local_addr

/-- Addresses contributed by an optional backend: its list when present,
nothing when absent. -/
def optAddrs {OpenE SS RS : Type} (o : Option (Endpoint OpenE SS RS)) : List LocalAddr :=
  match o with
  | some e => e.localAddr
  | none => []

/-! ## Client engine (src/client.rs) -/

/-- Observable substream events performed by a client operation, in
program order: opening the substream, writing an envelope to the send
half, polling the receive stream once, and dropping the send half
(explicitly or by leaving scope). -/
inductive Event (SReq : Type) where
  | openBi
  | send (msg : SReq)
  | recvNext
  | dropSend
deriving DecidableEq, Repr

/-- Substream obtained from open_bi: an abstract token for the send half
together with the receive side, modelled as the finite list of items the
peer eventually produces, in order; the end of the list is the orderly
end of the stream. -/
structure Substream (SendHalf RecvE SRes : Type) where
  sendHalf : SendHalf
  recvItems : List (Except RecvE SRes)

/-- Connection as the client engine uses it (the ServiceConnection bound
C): open_bi either fails or yields a substream, and writing the head
envelope either succeeds or fails with a send error. -/
structure ClientConn (SendHalf SReq SRes OpenE SendE RecvE : Type) where
  openResult : Except OpenE (Substream SendHalf RecvE SRes)
  sendHead : SReq → Except SendE Unit

/-- Conversion bundle for a mapped call of message M against inner service
S2 embedded in outer service S: the trait bounds of rpc_mapped.
msgIntoReq is the Into of M into the inner request envelope, respTryFrom
the TryFrom of the inner response envelope into the message response,
reqIntoOuter the Into of the inner request envelope into the outer one,
and resTryFromOuter the TryFrom of the outer response envelope into the
inner one (none on a failed downcast). -/
structure MsgConv (M MResp S2Req S2Res SReq SRes : Type) where
  msgIntoReq : M → S2Req
  respTryFrom : S2Res → Option MResp
  reqIntoOuter : S2Req → SReq
  resTryFromOuter : SRes → Option S2Res

variable {M MResp S2Req S2Res SReq SRes SendHalf OpenE SendE RecvE : Type}

/-- RpcClientError (client.rs lines 332-344). -/
inductive RpcClientError (OpenE SendE RecvE : Type) where
  | Open (e : OpenE)
  | Send (e : SendE)
  | EarlyClose
  | RecvError (e : RecvE)
  | DowncastError
deriving DecidableEq, Repr

/-- RpcClient::rpc_mapped (client.rs lines 130-150), together with the
trace of substream events it performs.  The message is converted into
the inner then the outer request envelope, the substream is opened, the
head is sent, exactly one item is read from the receive stream, the send
half is dropped only after that read returns (explicitly on success, by
scope exit on the early-return error paths), and the received envelope
is downcast through the outer and inner layers. -/
def RpcClient.rpcMapped (cv : MsgConv M MResp S2Req S2Res SReq SRes)
    (conn : ClientConn SendHalf SReq SRes OpenE SendE RecvE) (msg : M) :
    Except (RpcClientError OpenE SendE RecvE) MResp × List (Event SReq) :=
  let msg2 : S2Req := cv.msgIntoReq msg
  let env : SReq := cv.reqIntoOuter msg2
  match conn.openResult with
  | .error e => (.error (.Open e), [.openBi])
  | .ok sub =>
    match conn.sendHead env with
    | .error e => (.error (.Send e), [.openBi, .send env, .dropSend])
    | .ok _ =>
      match sub.recvItems.head? with
      | none => (.error .EarlyClose, [.openBi, .send env, .recvNext, .dropSend])
      | some (.error e) =>
        (.error (.RecvError e), [.openBi, .send env, .recvNext, .dropSend])
      | some (.ok res) =>
        match cv.resTryFromOuter res with
        | none => (.error .DowncastError, [.openBi, .send env, .recvNext, .dropSend])
        | some r2 =>
          match cv.respTryFrom r2 with
          | none => (.error .DowncastError, [.openBi, .send env, .recvNext, .dropSend])
          | some r => (.ok r, [.openBi, .send env, .recvNext, .dropSend])

/-- Identity instantiation of the conversion bundle at S2 = S: the
reflexive Into impl is the identity and the reflexive TryFrom impl is
infallible. -/
def idConv (msgIntoReq : M → SReq) (respTryFrom : SRes → Option MResp) :
    MsgConv M MResp SReq SRes SReq SRes :=
  { msgIntoReq := msgIntoReq
    respTryFrom := respTryFrom
    reqIntoOuter := id
    resTryFromOuter := some }

/-- RpcClient::rpc (client.rs lines 153-158): delegates to rpc_mapped
instantiated at the service itself. -/
def RpcClient.rpc (msgIntoReq : M → SReq) (respTryFrom : SRes → Option MResp)
    (conn : ClientConn SendHalf SReq SRes OpenE SendE RecvE) (msg : M) :
    Except (RpcClientError OpenE SendE RecvE) MResp × List (Event SReq) :=
  RpcClient.rpcMapped (idConv msgIntoReq respTryFrom) conn msg

/-- StreamingResponseError (client.rs lines 425-431): the only outer
failures of a server streaming call. -/
inductive StreamingResponseError (OpenE SendE : Type) where
  | Open (e : OpenE)
  | Send (e : SendE)
deriving DecidableEq, Repr

/-- StreamingResponseItemError (client.rs lines 442-448): per-item
failures of a server streaming call. -/
inductive StreamingResponseItemError (RecvE : Type) where
  | RecvError (e : RecvE)
  | DowncastError
deriving DecidableEq, Repr

/-- DeferDrop (client.rs lines 458-468): wraps a stream together with an
extra value that stays alive until the stream is dropped. -/
structure DeferDrop (α σ : Type) where
  stream : List α
  keepAlive : σ

/-- Stream impl of DeferDrop (client.rs lines 462-468): poll_next
delegates to the wrapped stream, so the observed items are exactly the
wrapped ones. -/
def DeferDrop.items {α σ : Type} (d : DeferDrop α σ) : List α :=
  d.stream

/-- Per-item conversion of server_streaming_mapped (client.rs lines
184-191): an Ok envelope is downcast through the outer layer and then to
the message response, either failure becoming DowncastError, and a
receive error becomes RecvError. -/
def mapStreamItem (cv : MsgConv M MResp S2Req S2Res SReq SRes) :
    Except RecvE SRes → Except (StreamingResponseItemError RecvE) MResp
  | .error e => .error (.RecvError e)
  | .ok x =>
    match cv.resTryFromOuter x with
    | none => .error .DowncastError
    | some x2 =>
      match cv.respTryFrom x2 with
      | none => .error .DowncastError
      | some m => .ok m

/-- RpcClient::server_streaming_mapped (client.rs lines 161-195): opens
the substream, sends the mapped head, and returns the receive stream
mapped item-wise, wrapped in DeferDrop with the send half so the send
half lives as long as the stream. -/
def RpcClient.serverStreamingMapped (cv : MsgConv M MResp S2Req S2Res SReq SRes)
    (conn : ClientConn SendHalf SReq SRes OpenE SendE RecvE) (msg : M) :
    Except (StreamingResponseError OpenE SendE)
      (DeferDrop (Except (StreamingResponseItemError RecvE) MResp) SendHalf) :=
  let env : SReq := cv.reqIntoOuter (cv.msgIntoReq msg)
  match conn.openResult with
  | .error e => .error (.Open e)
  | .ok sub =>
    match conn.sendHead env with
    | .error e => .error (.Send e)
    | .ok _ =>
      .ok { stream := sub.recvItems.map (mapStreamItem cv), keepAlive := sub.sendHalf }

/-- RpcClient::server_streaming (client.rs lines 198-209): delegates to
server_streaming_mapped at the service itself. -/
def RpcClient.serverStreaming (msgIntoReq : M → SReq) (respTryFrom : SRes → Option MResp)
    (conn : ClientConn SendHalf SReq SRes OpenE SendE RecvE) (msg : M) :
    Except (StreamingResponseError OpenE SendE)
      (DeferDrop (Except (StreamingResponseItemError RecvE) MResp) SendHalf) :=
  RpcClient.serverStreamingMapped (idConv msgIntoReq respTryFrom) conn msg

/-- ClientStreamingError (client.rs lines 389-395): the only outer
failures of a client streaming call. -/
inductive ClientStreamingError (OpenE SendE : Type) where
  | Open (e : OpenE)
  | Send (e : SendE)
deriving DecidableEq, Repr

/-- ClientStreamingItemError (client.rs lines 406-414): failures of the
client streaming response future. -/
inductive ClientStreamingItemError (RecvE : Type) where
  | EarlyClose
  | RecvError (e : RecvE)
  | DowncastError
deriving DecidableEq, Repr

/-- Handle to the update sink handed back by the streaming calls: it
wraps the substream send half (the MappedUpdateSink constructor call in
client.rs lines 236 and 294). -/
structure MappedUpdateSinkHandle (SendHalf : Type) where
  sendHalf : SendHalf

/-- RpcClient::client_streaming_mapped (client.rs lines 212-254): opens
the substream, sends the mapped head, wraps the send half as the update
sink, and returns the response future that reads exactly one item:
EarlyClose when the stream ended with no item, RecvError on a receive
failure, and the two-layer downcast otherwise. -/
def RpcClient.clientStreamingMapped (cv : MsgConv M MResp S2Req S2Res SReq SRes)
    (conn : ClientConn SendHalf SReq SRes OpenE SendE RecvE) (msg : M) :
    Except (ClientStreamingError OpenE SendE)
      (MappedUpdateSinkHandle SendHalf ×
        Except (ClientStreamingItemError RecvE) MResp) :=
  let env : SReq := cv.reqIntoOuter (cv.msgIntoReq msg)
  match conn.openResult with
  | .error e => .error (.Open e)
  | .ok sub =>
    match conn.sendHead env with
    | .error e => .error (.Send e)
    | .ok _ =>
      let fut : Except (ClientStreamingItemError RecvE) MResp :=
        match sub.recvItems.head? with
        | none => .error .EarlyClose
        | some (.error e) => .error (.RecvError e)
        | some (.ok x) =>
          match cv.resTryFromOuter x with
          | none => .error .DowncastError
          | some x2 =>
            match cv.respTryFrom x2 with
            | none => .error .DowncastError
            | some m => .ok m
      .ok ({ sendHalf := sub.sendHalf }, fut)

/-- RpcClient::client_streaming (client.rs lines 257-271): delegates to
client_streaming_mapped at the service itself. -/
def RpcClient.clientStreaming (msgIntoReq : M → SReq) (respTryFrom : SRes → Option MResp)
    (conn : ClientConn SendHalf SReq SRes OpenE SendE RecvE) (msg : M) :
    Except (ClientStreamingError OpenE SendE)
      (MappedUpdateSinkHandle SendHalf ×
        Except (ClientStreamingItemError RecvE) MResp) :=
  RpcClient.clientStreamingMapped (idConv msgIntoReq respTryFrom) conn msg

/-- BidiError (client.rs lines 355-361): the only outer failures of a
bidi call. -/
inductive BidiError (OpenE SendE : Type) where
  | Open (e : OpenE)
  | Send (e : SendE)
deriving DecidableEq, Repr

/-- BidiItemError (client.rs lines 372-378): per-item failures of the
bidi response stream. -/
inductive BidiItemError (RecvE : Type) where
  | RecvError (e : RecvE)
  | DowncastError
deriving DecidableEq, Repr

/-- Per-item conversion of bidi_mapped (client.rs lines 295-303). -/
def mapBidiItem (cv : MsgConv M MResp S2Req S2Res SReq SRes) :
    Except RecvE SRes → Except (BidiItemError RecvE) MResp
  | .error e => .error (.RecvError e)
  | .ok x =>
    match cv.resTryFromOuter x with
    | none => .error .DowncastError
    | some x2 =>
      match cv.respTryFrom x2 with
      | none => .error .DowncastError
      | some m => .ok m

/-- RpcClient::bidi_mapped (client.rs lines 274-305): opens the
substream, sends the mapped head, wraps the send half as the update sink
and maps the receive stream item-wise. -/
def RpcClient.bidiMapped (cv : MsgConv M MResp S2Req S2Res SReq SRes)
    (conn : ClientConn SendHalf SReq SRes OpenE SendE RecvE) (msg : M) :
    Except (BidiError OpenE SendE)
      (MappedUpdateSinkHandle SendHalf ×
        List (Except (BidiItemError RecvE) MResp)) :=
  let env : SReq := cv.reqIntoOuter (cv.msgIntoReq msg)
  match conn.openResult with
  | .error e => .error (.Open e)
  | .ok sub =>
    match conn.sendHead env with
    | .error e => .error (.Send e)
    | .ok _ =>
      .ok ({ sendHalf := sub.sendHalf }, sub.recvItems.map (mapBidiItem cv))

/-- RpcClient::bidi (client.rs lines 308-322): delegates to bidi_mapped
at the service itself. -/
def RpcClient.bidi (msgIntoReq : M → SReq) (respTryFrom : SRes → Option MResp)
    (conn : ClientConn SendHalf SReq SRes OpenE SendE RecvE) (msg : M) :
    Except (BidiError OpenE SendE)
      (MappedUpdateSinkHandle SendHalf ×
        List (Except (BidiItemError RecvE) MResp)) :=
  RpcClient.bidiMapped (idConv msgIntoReq respTryFrom) conn msg

/-! ## Update sink (src/client.rs lines 75-110) -/

/-- Readiness outcome of a cooperative sink poll. -/
inductive PollRes (α : Type) where
  | ready (a : α)
  | pending
deriving DecidableEq, Repr

/-- Model of the underlying send sink C::SendSink: the items written so
far, whether start_send of a given item fails, and the current outcomes
of the three poll methods. -/
structure SendSinkModel (SReq SendE : Type) where
  sent : List SReq
  startSendErr : SReq → Option SendE
  readyResult : PollRes (Except SendE Unit)
  flushResult : PollRes (Except SendE Unit)
  closeResult : PollRes (Except SendE Unit)

/-- start_send on the underlying sink: on success the item is appended to
the write log, on failure the log is unchanged. -/
def SendSinkModel.startSend {SReq SendE : Type} (s : SendSinkModel SReq SendE)
    (item : SReq) : SendSinkModel SReq SendE × Except SendE Unit :=
  match s.startSendErr item with
  | some e => (s, .error e)
  | none => ({ s with sent := s.sent ++ [item] }, .ok ())

/-- MappedUpdateSink (client.rs lines 73-81): pins the underlying send
sink of the connection. -/
structure MappedUpdateSink (SReq SendE : Type) where
  inner : SendSinkModel SReq SendE

/-- MappedUpdateSink::start_send (client.rs lines 97-101): converts the
item into the inner request envelope, then into the outer one, and hands
that envelope to the underlying sink. -/
def MappedUpdateSink.startSend {T S2Req SReq SendE : Type}
    (tIntoInner : T → S2Req) (reqIntoOuter : S2Req → SReq)
    (s : MappedUpdateSink SReq SendE) (item : T) :
    MappedUpdateSink SReq SendE × Except SendE Unit :=
  let req2 : S2Req := tIntoInner item
  let req : SReq := reqIntoOuter req2
  match s.inner.startSend req with
  | (inner2, r) => ({ inner := inner2 }, r)

/-- MappedUpdateSink::poll_ready (client.rs lines 93-95): delegates. -/
def MappedUpdateSink.pollReady {SReq SendE : Type}
    (s : MappedUpdateSink SReq SendE) : PollRes (Except SendE Unit) :=
  s.inner.readyResult

/-- MappedUpdateSink::poll_flush (client.rs lines 103-105): delegates. -/
def MappedUpdateSink.pollFlush {SReq SendE : Type}
    (s : MappedUpdateSink SReq SendE) : PollRes (Except SendE Unit) :=
  s.inner.flushResult

/-- MappedUpdateSink::poll_close (client.rs lines 107-109): delegates. -/
def MappedUpdateSink.pollClose {SReq SendE : Type}
    (s : MappedUpdateSink SReq SendE) : PollRes (Except SendE Unit) :=
  s.inner.closeResult

/-! ## Unmapped reference operations (spec §8 property 7)

Definitions following the words of the spec for the refinement claim:
an unmapped client speaks the outer envelope directly, with a single
Into step for requests and a single fallible downcast for responses. -/

/-- Modelled from the spec: rpc of an unmapped client that speaks the
outer envelope directly. -/
def rpcDirect (msgIntoReq : M → SReq) (respTryFrom : SRes → Option MResp)
    (conn : ClientConn SendHalf SReq SRes OpenE SendE RecvE) (msg : M) :
    Except (RpcClientError OpenE SendE RecvE) MResp × List (Event SReq) :=
  let env : SReq := msgIntoReq msg
  match conn.openResult with
  | .error e => (.error (.Open e), [.openBi])
  | .ok sub =>
    match conn.sendHead env with
    | .error e => (.error (.Send e), [.openBi, .send env, .dropSend])
    | .ok _ =>
      match sub.recvItems.head? with
      | none => (.error .EarlyClose, [.openBi, .send env, .recvNext, .dropSend])
      | some (.error e) =>
        (.error (.RecvError e), [.openBi, .send env, .recvNext, .dropSend])
      | some (.ok res) =>
        match respTryFrom res with
        | none => (.error .DowncastError, [.openBi, .send env, .recvNext, .dropSend])
        | some r => (.ok r, [.openBi, .send env, .recvNext, .dropSend])

/-- Modelled from the spec: server_streaming of an unmapped client, each
incoming envelope downcast in a single step. -/
def serverStreamingDirect (msgIntoReq : M → SReq) (respTryFrom : SRes → Option MResp)
    (conn : ClientConn SendHalf SReq SRes OpenE SendE RecvE) (msg : M) :
    Except (StreamingResponseError OpenE SendE)
      (DeferDrop (Except (StreamingResponseItemError RecvE) MResp) SendHalf) :=
  let env : SReq := msgIntoReq msg
  match conn.openResult with
  | .error e => .error (.Open e)
  | .ok sub =>
    match conn.sendHead env with
    | .error e => .error (.Send e)
    | .ok _ =>
      .ok { stream := sub.recvItems.map (fun x =>
              match x with
              | .error e => .error (.RecvError e)
              | .ok r =>
                match respTryFrom r with
                | none => .error .DowncastError
                | some m => .ok m),
            keepAlive := sub.sendHalf }

/-- Modelled from the spec: client_streaming of an unmapped client. -/
def clientStreamingDirect (msgIntoReq : M → SReq) (respTryFrom : SRes → Option MResp)
    (conn : ClientConn SendHalf SReq SRes OpenE SendE RecvE) (msg : M) :
    Except (ClientStreamingError OpenE SendE)
      (MappedUpdateSinkHandle SendHalf ×
        Except (ClientStreamingItemError RecvE) MResp) :=
  let env : SReq := msgIntoReq msg
  match conn.openResult with
  | .error e => .error (.Open e)
  | .ok sub =>
    match conn.sendHead env with
    | .error e => .error (.Send e)
    | .ok _ =>
      let fut : Except (ClientStreamingItemError RecvE) MResp :=
        match sub.recvItems.head? with
        | none => .error .EarlyClose
        | some (.error e) => .error (.RecvError e)
        | some (.ok x) =>
          match respTryFrom x with
          | none => .error .DowncastError
          | some m => .ok m
      .ok ({ sendHalf := sub.sendHalf }, fut)

/-- Modelled from the spec: bidi of an unmapped client. -/
def bidiDirect (msgIntoReq : M → SReq) (respTryFrom : SRes → Option MResp)
    (conn : ClientConn SendHalf SReq SRes OpenE SendE RecvE) (msg : M) :
    Except (BidiError OpenE SendE)
      (MappedUpdateSinkHandle SendHalf ×
        List (Except (BidiItemError RecvE) MResp)) :=
  let env : SReq := msgIntoReq msg
  match conn.openResult with
  | .error e => .error (.Open e)
  | .ok sub =>
    match conn.sendHead env with
    | .error e => .error (.Send e)
    | .ok _ =>
      .ok ({ sendHalf := sub.sendHalf }, sub.recvItems.map (fun x =>
        match x with
        | .error e => .error (.RecvError e)
        | .ok r =>
          match respTryFrom r with
          | none => .error .DowncastError
          | some m => .ok m))

/-! ## Trace predicates -/

/-- Predicate stating that a trace drops the send half strictly before
some poll of the receive stream, i.e. the client closes its send half
before reading. -/
def closesSendBeforeRecvNext (tr : List (Event SReq)) : Prop :=
  ∃ i : Fin tr.length, ∃ j : Fin tr.length,
    tr.get i = Event.dropSend ∧ tr.get j = Event.recvNext ∧ (i : Nat) < (j : Nat)

instance {SReq : Type} [DecidableEq SReq] (tr : List (Event SReq)) :
    Decidable (closesSendBeforeRecvNext tr) := by
  unfold closesSendBeforeRecvNext
  infer_instance

/-! ## Concrete fixtures used to instantiate the theorems -/

/-- Concrete backend connection whose open succeeds. -/
def connA : Conn Nat Nat Nat :=
  { openResult := .ok (1, 2) }

/-- Concrete backend connection whose open fails. -/
def connBad : Conn Nat Nat Nat :=
  { openResult := .error 42 }

/-- Concrete backend endpoint that accepts a substream. -/
def epA : Endpoint Nat Nat Nat :=
  { localAddr := [LocalAddr.mem 0], acceptResult := some (.ok (1, 2)) }

/-- Concrete backend endpoint that never yields. -/
def epB : Endpoint Nat Nat Nat :=
  { localAddr := [LocalAddr.nodeId 9], acceptResult := none }

/-- Identity conversion bundle at Nat envelopes. -/
def cvN : MsgConv Nat Nat Nat Nat Nat Nat :=
  { msgIntoReq := id, respTryFrom := some, reqIntoOuter := id, resTryFromOuter := some }

/-- Concrete substream delivering one Ok envelope. -/
def subN : Substream Nat Nat Nat :=
  { sendHalf := 7, recvItems := [Except.ok 5] }

/-- Concrete client connection delivering one Ok envelope. -/
def connN : ClientConn Nat Nat Nat Nat Nat Nat :=
  { openResult := .ok subN, sendHead := fun _ => .ok () }

/-- Concrete client connection whose receive stream ends immediately. -/
def connEmptyN : ClientConn Nat Nat Nat Nat Nat Nat :=
  { openResult := .ok { sendHalf := 7, recvItems := [] }, sendHead := fun _ => .ok () }

/-- Concrete underlying send sink. -/
def sinkN : SendSinkModel Nat Nat :=
  { sent := [10]
    startSendErr := fun _ => none
    readyResult := .ready (.ok ())
    flushResult := .pending
    closeResult := .ready (.ok ()) }

/-! ## Theorems -/

section Theorems

variable {EA EB SA RA SB RB : Type}

/-- Helper: shape of the event trace of rpc_mapped: open fails, send
fails, or the full open-send-recv-drop interaction happens. -/
theorem rpcMapped_trace (cv : MsgConv M MResp S2Req S2Res SReq SRes)
    (conn : ClientConn SendHalf SReq SRes OpenE SendE RecvE) (msg : M) :
    (RpcClient.rpcMapped cv conn msg).2 = [Event.openBi] ∨
    (∃ env, (RpcClient.rpcMapped cv conn msg).2 =
      [Event.openBi, Event.send env, Event.dropSend]) ∨
    (∃ env, (RpcClient.rpcMapped cv conn msg).2 =
      [Event.openBi, Event.send env, Event.recvNext, Event.dropSend]) := by
  unfold RpcClient.rpcMapped
  cases hopen : conn.openResult with
  | error e => simp [hopen]
  | ok sub =>
    cases hsend : conn.sendHead (cv.reqIntoOuter (cv.msgIntoReq msg)) with
    | error e => simp [hopen, hsend]
    | ok u =>
      cases hh : sub.recvItems.head? with
      | none => simp [hopen, hsend, hh]
      | some item =>
        cases item with
        | error e => simp [hopen, hsend, hh]
        | ok res =>
          cases hr : cv.resTryFromOuter res with
          | none => simp [hopen, hsend, hh, hr]
          | some r2 =>
            cases hr2 : cv.respTryFrom r2 with
            | none => simp [hopen, hsend, hh, hr, hr2]
            | some r => simp [hopen, hsend, hh, hr, hr2]

/-- Helper: the open-failure trace contains no receive poll. -/
theorem trace1_no_recvNext {SReq : Type} (j : Nat) :
    ([Event.openBi] : List (Event SReq)).get? j ≠ some Event.recvNext := by
  match j with
  | 0 => simp
  | n + 1 => simp

/-- Helper: the send-failure trace contains no receive poll. -/
theorem trace3_no_recvNext {SReq : Type} (env : SReq) (j : Nat) :
    ([Event.openBi, Event.send env, Event.dropSend]).get? j ≠ some Event.recvNext := by
  match j with
  | 0 => simp
  | 1 => simp
  | 2 => simp
  | n + 3 => simp

/-- Helper: in the full interaction trace the send half is dropped only
at position 3. -/
theorem trace4_dropSend {SReq : Type} (env : SReq) (i : Nat)
    (h : ([Event.openBi, Event.send env, Event.recvNext, Event.dropSend]).get? i =
      some Event.dropSend) : i = 3 := by
  match i, h with
  | 0, h => simp at h
  | 1, h => simp at h
  | 2, h => simp at h
  | 3, _ => rfl
  | n + 4, h => simp at h

/-- Helper: in the full interaction trace the receive stream is polled
only at position 2. -/
theorem trace4_recvNext {SReq : Type} (env : SReq) (j : Nat)
    (h : ([Event.openBi, Event.send env, Event.recvNext, Event.dropSend]).get? j =
      some Event.recvNext) : j = 2 := by
  match j, h with
  | 0, h => simp at h
  | 1, h => simp at h
  | 2, _ => rfl
  | 3, h => simp at h
  | n + 4, h => simp at h

/-- C2: in every rpc_mapped execution the send half is retained until the
response envelope has been received: any drop of the send half in the
event trace comes strictly after the poll of the receive stream. -/
theorem c2_send_half_retained_until_response
    (cv : MsgConv M MResp S2Req S2Res SReq SRes)
    (conn : ClientConn SendHalf SReq SRes OpenE SendE RecvE) (msg : M) (i j : Nat)
    (hi : (RpcClient.rpcMapped cv conn msg).2.get? i = some Event.dropSend)
    (hj : (RpcClient.rpcMapped cv conn msg).2.get? j = some Event.recvNext) :
    j < i := by
  rcases rpcMapped_trace cv conn msg with h | ⟨env, h⟩ | ⟨env, h⟩
  · rw [h] at hj
    exact absurd hj (trace1_no_recvNext j)
  · rw [h] at hj
    exact absurd hj (trace3_no_recvNext env j)
  · rw [h] at hi hj
    have hi3 := trace4_dropSend env i hi
    have hj2 := trace4_recvNext env j hj
    omega

/-- Witness for C2 at a concrete connection: the success trace polls the
receive stream at position 2 and drops the send half at position 3. -/
theorem c2_send_half_retained_until_response_witness :
    (RpcClient.rpcMapped cvN connN 4).2.get? 3 = some Event.dropSend ∧
    (RpcClient.rpcMapped cvN connN 4).2.get? 2 = some Event.recvNext ∧
    2 < 3 :=
  ⟨rfl, rfl, c2_send_half_retained_until_response cvN connN 4 3 2 rfl rfl⟩

/-- Counterexample for C3: at a concrete connection whose rpc call
succeeds, the trace never drops the send half before polling the receive
stream, refuting the claim that the client closes its send half
immediately after the head and before reading the response. -/
theorem c3_counterexample_no_close_before_read :
    ¬ closesSendBeforeRecvNext ((RpcClient.rpcMapped cvN connN 4).2) := by
  decide

/-- C3 amended: in the Rpc pattern the client does not close its send
half after sending the head and before reading the response; the send
half is dropped only after the single read of the receive stream. -/
theorem c3_amended_drop_only_after_read
    (cv : MsgConv M MResp S2Req S2Res SReq SRes)
    (conn : ClientConn SendHalf SReq SRes OpenE SendE RecvE) (msg : M) :
    ¬ closesSendBeforeRecvNext ((RpcClient.rpcMapped cv conn msg).2) := by
  rcases rpcMapped_trace cv conn msg with h | ⟨env, h⟩ | ⟨env, h⟩ <;> rw [h]
  · rintro ⟨i, j, hi, hj, hij⟩
    have := @trace1_no_recvNext SReq (j : Nat)
    rw [List.get?_eq_get j.isLt] at this
    simp only [hj] at this
    exact this rfl
  · rintro ⟨i, j, hi, hj, hij⟩
    have := trace3_no_recvNext env (j : Nat)
    rw [List.get?_eq_get j.isLt] at this
    simp only [hj] at this
    exact this rfl
  · rintro ⟨i, j, hi, hj, hij⟩
    have h3 : (i : Nat) = 3 := by
      apply trace4_dropSend env
      rw [List.get?_eq_get i.isLt, hi]
    have h2 : (j : Nat) = 2 := by
      apply trace4_recvNext env
      rw [List.get?_eq_get j.isLt, hj]
    omega

/-- Witness for the amended C3 at a concrete connection whose receive
stream ends immediately. -/
theorem c3_amended_drop_only_after_read_witness :
    ¬ closesSendBeforeRecvNext ((RpcClient.rpcMapped cvN connEmptyN 4).2) :=
  c3_amended_drop_only_after_read cvN connEmptyN 4

/-- C4: the unmapped client operations rpc, server_streaming,
client_streaming and bidi each coincide, result and substream
interaction alike, with their mapped variant instantiated at the
identity inner service, which in turn equals the direct unmapped
operation speaking the outer envelope; so the unmapped client refines
the mapper-aware design. -/
theorem c4_unmapped_refines_mapped
    (msgIntoReq : M → SReq) (respTryFrom : SRes → Option MResp)
    (conn : ClientConn SendHalf SReq SRes OpenE SendE RecvE) (msg : M) :
    RpcClient.rpc msgIntoReq respTryFrom conn msg =
      rpcDirect msgIntoReq respTryFrom conn msg ∧
    RpcClient.serverStreaming msgIntoReq respTryFrom conn msg =
      serverStreamingDirect msgIntoReq respTryFrom conn msg ∧
    RpcClient.clientStreaming msgIntoReq respTryFrom conn msg =
      clientStreamingDirect msgIntoReq respTryFrom conn msg ∧
    RpcClient.bidi msgIntoReq respTryFrom conn msg =
      bidiDirect msgIntoReq respTryFrom conn msg :=
  ⟨rfl, rfl, rfl, rfl⟩

/-- C5: open on a combined connection uses backend a whenever it is
configured, whatever b is, returning A-tagged halves or an A-tagged
error; otherwise it uses backend b with B tags; and with both backends
absent it fails with NoChannel. -/
theorem c5_combined_open_priority (a : Conn EA SA RA) (b : Option (Conn EB SB RB))
    (bc : Conn EB SB RB) :
    (∀ s r, a.openResult = .ok (s, r) →
      CombinedConnection.open ⟨some a, b⟩ = .ok (.A s, .A r)) ∧
    (∀ e, a.openResult = .error e →
      CombinedConnection.open ⟨some a, b⟩ = .error (.A e)) ∧
    (∀ s r, bc.openResult = .ok (s, r) →
      CombinedConnection.open
        (⟨none, some bc⟩ : CombinedConnection EA EB SA RA SB RB) = .ok (.B s, .B r)) ∧
    (∀ e, bc.openResult = .error e →
      CombinedConnection.open
        (⟨none, some bc⟩ : CombinedConnection EA EB SA RA SB RB) = .error (.B e)) ∧
    CombinedConnection.open
      (⟨none, none⟩ : CombinedConnection EA EB SA RA SB RB) = .error .noChannel := by
  refine ⟨?_, ?_, ?_, ?_, ?_⟩
  · intro s r h
    simp [CombinedConnection.open, h]
  · intro e h
    simp [CombinedConnection.open, h]
  · intro s r h
    simp [CombinedConnection.open, h]
  · intro e h
    simp [CombinedConnection.open, h]
  · simp [CombinedConnection.open]

/-- Witness for C5: a concrete combined connection with backend a
configured opens via a and tags the halves with A. -/
theorem c5_combined_open_priority_witness :
    connA.openResult = .ok (1, 2) ∧
    CombinedConnection.open
      (⟨some connA, none⟩ : CombinedConnection Nat Nat Nat Nat Nat Nat) =
      .ok (.A 1, .A 2) :=
  ⟨rfl, (c5_combined_open_priority connA none connBad).1 1 2 rfl⟩

/-- C6: when open and the head send succeed, server_streaming_mapped
returns a DeferDrop wrapper whose stream is, index by index, exactly the
underlying receive stream pushed through the per-item downcast (no item
added, dropped, reordered or otherwise altered) and whose kept-alive
value is the send half of the opened substream. -/
theorem c6_server_streaming_faithful
    (cv : MsgConv M MResp S2Req S2Res SReq SRes)
    (conn : ClientConn SendHalf SReq SRes OpenE SendE RecvE) (msg : M)
    (sub : Substream SendHalf RecvE SRes)
    (hopen : conn.openResult = .ok sub)
    (hsend : conn.sendHead (cv.reqIntoOuter (cv.msgIntoReq msg)) = .ok ()) :
    ∃ d, RpcClient.serverStreamingMapped cv conn msg = .ok d ∧
      d.keepAlive = sub.sendHalf ∧
      d.items.length = sub.recvItems.length ∧
      ∀ i : Nat, d.items.get? i = Option.map (mapStreamItem cv) (sub.recvItems.get? i) := by
  refine ⟨⟨sub.recvItems.map (mapStreamItem cv), sub.sendHalf⟩, ?_, rfl, ?_, ?_⟩
  · simp [RpcClient.serverStreamingMapped, hopen, hsend]
  · simp [DeferDrop.items]
  · intro i
    simp [DeferDrop.items, List.get?_eq_getElem?, List.getElem?_map]

/-- Witness for C6 at a concrete connection delivering one envelope. -/
theorem c6_server_streaming_faithful_witness :
    connN.openResult = .ok subN ∧
    connN.sendHead (cvN.reqIntoOuter (cvN.msgIntoReq 4)) = .ok () ∧
    ∃ d, RpcClient.serverStreamingMapped cvN connN 4 = .ok d ∧
      d.keepAlive = subN.sendHalf ∧
      d.items.length = subN.recvItems.length ∧
      ∀ i : Nat, d.items.get? i = Option.map (mapStreamItem cvN) (subN.recvItems.get? i) :=
  ⟨rfl, rfl, c6_server_streaming_faithful cvN connN 4 subN rfl rfl⟩

/-- C7: start_send on the mapped update sink hands the underlying sink
exactly the envelope obtained by the two-step conversion of the item
(into the inner request type, then into the outer one), appending it to
the write log on success and reporting the underlying outcome; the three
poll methods delegate to the underlying sink unchanged. -/
theorem c7_mapped_update_sink_homomorphism {T : Type}
    (f : T → S2Req) (g : S2Req → SReq)
    (s : MappedUpdateSink SReq SendE) (t : T) :
    (MappedUpdateSink.startSend f g s t).2 = (s.inner.startSend (g (f t))).2 ∧
    (MappedUpdateSink.startSend f g s t).1.inner = (s.inner.startSend (g (f t))).1 ∧
    (s.inner.startSendErr (g (f t)) = none →
      (MappedUpdateSink.startSend f g s t).1.inner.sent = s.inner.sent ++ [g (f t)]) ∧
    s.pollReady = s.inner.readyResult ∧
    s.pollFlush = s.inner.flushResult ∧
    s.pollClose = s.inner.closeResult := by
  refine ⟨rfl, rfl, ?_, rfl, rfl, rfl⟩
  intro h
  simp [MappedUpdateSink.startSend, SendSinkModel.startSend, h]

/-- Witness for C7 at a concrete sink and item. -/
theorem c7_mapped_update_sink_homomorphism_witness :
    sinkN.startSendErr (id (id 3)) = none ∧
    (MappedUpdateSink.startSend id id ⟨sinkN⟩ 3).1.inner.sent = sinkN.sent ++ [id (id 3)] :=
  ⟨rfl, (c7_mapped_update_sink_homomorphism id id ⟨sinkN⟩ 3).2.2.1 rfl⟩

/-- C8: accept on a combined listener completes with the value of
whichever branch yields, tagged with its origin backend; an absent
backend contributes a never-completing branch, so with both backends
absent accept never completes for any scheduling, and in particular
never returns an error; moreover the accept error type has only the two
tagged variants and no NoChannel. -/
theorem c8_combined_accept_race
    (e : CombinedServerEndpoint EA EB SA RA SB RB)
    (addr : List LocalAddr) (preferA : Bool) :
    CombinedServerEndpoint.accept
      (⟨none, none, addr⟩ : CombinedServerEndpoint EA EB SA RA SB RB) preferA = none ∧
    (e.a = none → e.aBranch = none) ∧
    (e.b = none → e.bBranch = none) ∧
    (∀ res, e.accept preferA = some res →
      e.aBranch = some res ∨ e.bBranch = some res) ∧
    (∀ ss rs, e.accept preferA = some (.ok (ss, rs)) →
      (∃ ea send recv, e.a = some ea ∧ ea.acceptResult = some (.ok (send, recv)) ∧
        ss = .A send ∧ rs = .A recv) ∨
      (∃ eb send recv, e.b = some eb ∧ eb.acceptResult = some (.ok (send, recv)) ∧
        ss = .B send ∧ rs = .B recv)) ∧
    (∀ err : AcceptBiError EA EB, (∃ x, err = .A x) ∨ (∃ x, err = .B x)) := by
  have hab : ∀ res, e.aBranch = some res →
      ∃ ea, e.a = some ea ∧
        ((∃ send recv, ea.acceptResult = some (.ok (send, recv)) ∧
          res = .ok (.A send, .A recv)) ∨
         (∃ err, ea.acceptResult = some (.error err) ∧ res = .error (.A err))) := by
    intro res h
    cases ha : e.a with
    | none => simp [CombinedServerEndpoint.aBranch, ha] at h
    | some ea =>
      refine ⟨ea, rfl, ?_⟩
      cases hr : ea.acceptResult with
      | none => simp [CombinedServerEndpoint.aBranch, ha, hr] at h
      | some r =>
        cases r with
        | ok p =>
          cases p with
          | mk send recv =>
            simp [CombinedServerEndpoint.aBranch, ha, hr] at h
            exact Or.inl ⟨send, recv, rfl, h.symm⟩
        | error err =>
          simp [CombinedServerEndpoint.aBranch, ha, hr] at h
          exact Or.inr ⟨err, rfl, h.symm⟩
  have hbb : ∀ res, e.bBranch = some res →
      ∃ eb, e.b = some eb ∧
        ((∃ send recv, eb.acceptResult = some (.ok (send, recv)) ∧
          res = .ok (.B send, .B recv)) ∨
         (∃ err, eb.acceptResult = some (.error err) ∧ res = .error (.B err))) := by
    intro res h
    cases hb : e.b with
    | none => simp [CombinedServerEndpoint.bBranch, hb] at h
    | some eb =>
      refine ⟨eb, rfl, ?_⟩
      cases hr : eb.acceptResult with
      | none => simp [CombinedServerEndpoint.bBranch, hb, hr] at h
      | some r =>
        cases r with
        | ok p =>
          cases p with
          | mk send recv =>
            simp [CombinedServerEndpoint.bBranch, hb, hr] at h
            exact Or.inl ⟨send, recv, rfl, h.symm⟩
        | error err =>
          simp [CombinedServerEndpoint.bBranch, hb, hr] at h
          exact Or.inr ⟨err, rfl, h.symm⟩
  have hsel : ∀ res, e.accept preferA = some res →
      e.aBranch = some res ∨ e.bBranch = some res := by
    intro res h
    unfold CombinedServerEndpoint.accept at h
    cases hA : e.aBranch with
    | none =>
      rw [hA] at h
      cases hB : e.bBranch with
      | none => rw [hB] at h; simp at h
      | some rb =>
        rw [hB] at h
        simp at h
        subst h
        exact Or.inr rfl
    | some ra =>
      rw [hA] at h
      cases hB : e.bBranch with
      | none =>
        rw [hB] at h
        simp at h
        subst h
        exact Or.inl rfl
      | some rb =>
        rw [hB] at h
        simp at h
        cases preferA with
        | true =>
          simp at h
          subst h
          exact Or.inl rfl
        | false =>
          simp at h
          subst h
          exact Or.inr rfl
  refine ⟨?_, ?_, ?_, hsel, ?_, ?_⟩
  · simp [CombinedServerEndpoint.accept, CombinedServerEndpoint.aBranch,
      CombinedServerEndpoint.bBranch]
  · intro h
    simp [CombinedServerEndpoint.aBranch, h]
  · intro h
    simp [CombinedServerEndpoint.bBranch, h]
  · intro ss rs h
    rcases hsel _ h with ha | hb
    · rcases hab _ ha with ⟨ea, hea, ⟨send, recv, hacc, hres⟩ | ⟨err, _, hres⟩⟩
      · simp only [Except.ok.injEq, Prod.mk.injEq] at hres
        exact Or.inl ⟨ea, send, recv, hea, hacc, hres.1, hres.2⟩
      · exact absurd hres (by simp)
    · rcases hbb _ hb with ⟨eb, heb, ⟨send, recv, hacc, hres⟩ | ⟨err, _, hres⟩⟩
      · simp only [Except.ok.injEq, Prod.mk.injEq] at hres
        exact Or.inr ⟨eb, send, recv, heb, hacc, hres.1, hres.2⟩
      · exact absurd hres (by simp)
  · intro err
    cases err with
    | A x => exact Or.inl ⟨x, rfl⟩
    | B x => exact Or.inr ⟨x, rfl⟩

/-- Witness for C8: at a concrete endpoint whose backend b is absent, the
b branch of the race is forever pending, and the race completes with the
A-tagged halves of backend a. -/
theorem c8_combined_accept_race_witness :
    (CombinedServerEndpoint.new (some epA)
      (none : Option (Endpoint Nat Nat Nat))).b = none ∧
    (CombinedServerEndpoint.new (some epA)
      (none : Option (Endpoint Nat Nat Nat))).bBranch = none ∧
    (CombinedServerEndpoint.new (some epA)
      (none : Option (Endpoint Nat Nat Nat))).accept true = some (.ok (.A 1, .A 2)) :=
  ⟨rfl,
    (c8_combined_accept_race
      (CombinedServerEndpoint.new (some epA) (none : Option (Endpoint Nat Nat Nat)))
      [] true).2.2.1 rfl,
    rfl⟩

/-- Counterexample for C9: the combined listener built from two absent
backends has an empty address list, refuting the claim that local_addr
always returns a non-empty list. -/
theorem c9_counterexample_empty_addr :
    (CombinedServerEndpoint.new
      (none : Option (Endpoint Nat Nat Nat))
      (none : Option (Endpoint Nat Nat Nat))).localAddrFn = [] :=
  rfl

/-- C9 amended: local_addr of a combined listener is the ordered
concatenation of backend a's addresses followed by backend b's, an
absent backend contributing no addresses; the list is non-empty exactly
when some configured backend has addresses, which the construction does
not guarantee. -/
theorem c9_amended_local_addr_concat
    (a : Option (Endpoint EA SA RA)) (b : Option (Endpoint EB SB RB)) :
    (CombinedServerEndpoint.new a b).localAddrFn = optAddrs a ++ optAddrs b := by
  cases a <;> cases b <;>
    simp [CombinedServerEndpoint.new, CombinedServerEndpoint.localAddrFn, optAddrs]

/-- C10: the address list of a combined listener is the snapshot taken at
construction: accept returns the endpoint state unchanged, clone copies
the list verbatim (indeed the whole endpoint), and replacing the stored
backends afterwards leaves the snapshot untouched. -/
theorem c10_local_addr_immutable
    (e : CombinedServerEndpoint EA EB SA RA SB RB) (preferA : Bool)
    (a2 : Option (Endpoint EA SA RA)) (b2 : Option (Endpoint EB SB RB)) :
    (e.acceptStep preferA).1 = e ∧
    (e.acceptStep preferA).1.localAddrFn = e.localAddrFn ∧
    (e.acceptStep preferA).2 = e.accept preferA ∧
    e.clone = e ∧
    e.clone.localAddrFn = e.localAddrFn ∧
    ({ e with a := a2, b := b2 } :
      CombinedServerEndpoint EA EB SA RA SB RB).localAddrFn = e.localAddrFn :=
  ⟨rfl, rfl, rfl, rfl, rfl, rfl⟩

/-- Helper: rpc_mapped returns EarlyClose exactly when open and the head
send succeed but the receive stream ends before yielding any item. -/
theorem rpc_earlyClose_iff (cv : MsgConv M MResp S2Req S2Res SReq SRes)
    (conn : ClientConn SendHalf SReq SRes OpenE SendE RecvE) (msg : M) :
    (RpcClient.rpcMapped cv conn msg).1 = .error .EarlyClose ↔
      ∃ sub, conn.openResult = .ok sub ∧
        conn.sendHead (cv.reqIntoOuter (cv.msgIntoReq msg)) = .ok () ∧
        sub.recvItems = [] := by
  cases hopen : conn.openResult with
  | error e => simp [RpcClient.rpcMapped, hopen]
  | ok sub =>
    cases hsend : conn.sendHead (cv.reqIntoOuter (cv.msgIntoReq msg)) with
    | error e => simp [RpcClient.rpcMapped, hopen, hsend]
    | ok u =>
      cases u
      cases hh : sub.recvItems.head? with
      | none =>
        have hempty : sub.recvItems = [] := by
          cases hl : sub.recvItems with
          | nil => rfl
          | cons x xs => rw [hl] at hh; simp at hh
        simp [RpcClient.rpcMapped, hopen, hsend, hh, hempty]
      | some item =>
        have hne : sub.recvItems ≠ [] := by
          intro he
          rw [he] at hh
          simp at hh
        cases item with
        | error e => simp [RpcClient.rpcMapped, hopen, hsend, hh, hne]
        | ok res =>
          cases hr : cv.resTryFromOuter res with
          | none => simp [RpcClient.rpcMapped, hopen, hsend, hh, hr, hne]
          | some r2 =>
            cases hr2 : cv.respTryFrom r2 with
            | none => simp [RpcClient.rpcMapped, hopen, hsend, hh, hr, hr2, hne]
            | some r => simp [RpcClient.rpcMapped, hopen, hsend, hh, hr, hr2, hne]

/-- Helper: server_streaming_mapped fails as a whole exactly when opening
the substream fails or writing the head fails. -/
theorem serverStreaming_error_iff (cv : MsgConv M MResp S2Req S2Res SReq SRes)
    (conn : ClientConn SendHalf SReq SRes OpenE SendE RecvE) (msg : M) :
    (∃ er, RpcClient.serverStreamingMapped cv conn msg = .error er) ↔
      (∃ e, conn.openResult = .error e) ∨
      (∃ sub e, conn.openResult = .ok sub ∧
        conn.sendHead (cv.reqIntoOuter (cv.msgIntoReq msg)) = .error e) := by
  cases hopen : conn.openResult with
  | error e => simp [RpcClient.serverStreamingMapped, hopen]
  | ok sub =>
    cases hsend : conn.sendHead (cv.reqIntoOuter (cv.msgIntoReq msg)) with
    | error e => simp [RpcClient.serverStreamingMapped, hopen, hsend]
    | ok u =>
      cases u
      simp [RpcClient.serverStreamingMapped, hopen, hsend]

/-- Helper: on a successful client_streaming_mapped call the response
future resolves to EarlyClose exactly when the receive stream of the
opened substream ends before yielding any item. -/
theorem clientStreaming_future_earlyClose (cv : MsgConv M MResp S2Req S2Res SReq SRes)
    (conn : ClientConn SendHalf SReq SRes OpenE SendE RecvE) (msg : M)
    (p : MappedUpdateSinkHandle SendHalf × Except (ClientStreamingItemError RecvE) MResp)
    (h : RpcClient.clientStreamingMapped cv conn msg = .ok p) :
    ∃ sub, conn.openResult = .ok sub ∧
      (p.2 = .error .EarlyClose ↔ sub.recvItems = []) := by
  cases hopen : conn.openResult with
  | error e => simp [RpcClient.clientStreamingMapped, hopen] at h
  | ok sub =>
    refine ⟨sub, rfl, ?_⟩
    cases hsend : conn.sendHead (cv.reqIntoOuter (cv.msgIntoReq msg)) with
    | error e => simp [RpcClient.clientStreamingMapped, hopen, hsend] at h
    | ok u =>
      cases u
      simp [RpcClient.clientStreamingMapped, hopen, hsend] at h
      subst h
      cases hh : sub.recvItems.head? with
      | none =>
        have hempty : sub.recvItems = [] := by
          cases hl : sub.recvItems with
          | nil => rfl
          | cons x xs => rw [hl] at hh; simp at hh
        simp [hh, hempty]
      | some item =>
        have hne : sub.recvItems ≠ [] := by
          intro he
          rw [he] at hh
          simp at hh
        cases item with
        | error e => simp [hh, hne]
        | ok x =>
          cases hr : cv.resTryFromOuter x with
          | none => simp [hh, hr, hne]
          | some x2 =>
            cases hr2 : cv.respTryFrom x2 with
            | none => simp [hh, hr, hr2, hne]
            | some m => simp [hh, hr, hr2, hne]

/-- C1: the client error surface is exactly as specified: rpc fails only
with Open, Send, EarlyClose, Recv or Downcast, and yields EarlyClose
exactly when the receive stream ends before any envelope; the streaming
operations fail as a whole only with Open or Send (for server_streaming
exactly when open or the head send fails), their per-item errors being
Recv and Downcast, the client_streaming response future additionally
EarlyClose exactly when the stream ends before the first envelope, a
case distinct from Recv. -/
theorem c1_error_surface (cv : MsgConv M MResp S2Req S2Res SReq SRes)
    (conn : ClientConn SendHalf SReq SRes OpenE SendE RecvE) (msg : M) :
    (∀ er, (RpcClient.rpcMapped cv conn msg).1 = .error er →
      (∃ x, er = RpcClientError.Open x) ∨ (∃ x, er = RpcClientError.Send x) ∨
      er = RpcClientError.EarlyClose ∨ (∃ x, er = RpcClientError.RecvError x) ∨
      er = RpcClientError.DowncastError) ∧
    ((RpcClient.rpcMapped cv conn msg).1 = .error .EarlyClose ↔
      ∃ sub, conn.openResult = .ok sub ∧
        conn.sendHead (cv.reqIntoOuter (cv.msgIntoReq msg)) = .ok () ∧
        sub.recvItems = []) ∧
    (∀ er, RpcClient.serverStreamingMapped cv conn msg = .error er →
      (∃ x, er = StreamingResponseError.Open x) ∨
      (∃ x, er = StreamingResponseError.Send x)) ∧
    ((∃ er, RpcClient.serverStreamingMapped cv conn msg = .error er) ↔
      (∃ e, conn.openResult = .error e) ∨
      (∃ sub e, conn.openResult = .ok sub ∧
        conn.sendHead (cv.reqIntoOuter (cv.msgIntoReq msg)) = .error e)) ∧
    (∀ er, RpcClient.clientStreamingMapped cv conn msg = .error er →
      (∃ x, er = ClientStreamingError.Open x) ∨
      (∃ x, er = ClientStreamingError.Send x)) ∧
    (∀ er, RpcClient.bidiMapped cv conn msg = .error er →
      (∃ x, er = BidiError.Open x) ∨ (∃ x, er = BidiError.Send x)) ∧
    (∀ p, RpcClient.clientStreamingMapped cv conn msg = .ok p →
      ∃ sub, conn.openResult = .ok sub ∧
        (p.2 = .error .EarlyClose ↔ sub.recvItems = [])) ∧
    (∀ x : RecvE, (ClientStreamingItemError.EarlyClose :
      ClientStreamingItemError RecvE) ≠ ClientStreamingItemError.RecvError x) ∧
    (∀ it : StreamingResponseItemError RecvE,
      (∃ x, it = StreamingResponseItemError.RecvError x) ∨
      it = StreamingResponseItemError.DowncastError) ∧
    (∀ it : ClientStreamingItemError RecvE,
      it = ClientStreamingItemError.EarlyClose ∨
      (∃ x, it = ClientStreamingItemError.RecvError x) ∨
      it = ClientStreamingItemError.DowncastError) ∧
    (∀ it : BidiItemError RecvE,
      (∃ x, it = BidiItemError.RecvError x) ∨ it = BidiItemError.DowncastError) := by
  refine ⟨?_, rpc_earlyClose_iff cv conn msg, ?_,
    serverStreaming_error_iff cv conn msg, ?_, ?_,
    clientStreaming_future_earlyClose cv conn msg, ?_, ?_, ?_, ?_⟩
  · intro er _
    cases er with
    | Open x => exact Or.inl ⟨x, rfl⟩
    | Send x => exact Or.inr (Or.inl ⟨x, rfl⟩)
    | EarlyClose => exact Or.inr (Or.inr (Or.inl rfl))
    | RecvError x => exact Or.inr (Or.inr (Or.inr (Or.inl ⟨x, rfl⟩)))
    | DowncastError => exact Or.inr (Or.inr (Or.inr (Or.inr rfl)))
  · intro er _
    cases er with
    | Open x => exact Or.inl ⟨x, rfl⟩
    | Send x => exact Or.inr ⟨x, rfl⟩
  · intro er _
    cases er with
    | Open x => exact Or.inl ⟨x, rfl⟩
    | Send x => exact Or.inr ⟨x, rfl⟩
  · intro er _
    cases er with
    | Open x => exact Or.inl ⟨x, rfl⟩
    | Send x => exact Or.inr ⟨x, rfl⟩
  · intro x h
    exact ClientStreamingItemError.noConfusion h
  · intro it
    cases it with
    | RecvError x => exact Or.inl ⟨x, rfl⟩
    | DowncastError => exact Or.inr rfl
  · intro it
    cases it with
    | EarlyClose => exact Or.inl rfl
    | RecvError x => exact Or.inr (Or.inl ⟨x, rfl⟩)
    | DowncastError => exact Or.inr (Or.inr rfl)
  · intro it
    cases it with
    | RecvError x => exact Or.inl ⟨x, rfl⟩
    | DowncastError => exact Or.inr rfl

/-- Witness for C1: at a concrete connection whose receive stream ends
immediately, rpc yields exactly EarlyClose. -/
theorem c1_error_surface_witness :
    (RpcClient.rpcMapped cvN connEmptyN 4).1 = .error .EarlyClose :=
  (c1_error_surface cvN connEmptyN 4).2.1.mpr ⟨⟨7, []⟩, rfl, rfl, rfl⟩

end Theorems

end QuicRpc
